import Mathlib

/-!
Shallow embedding of the ospagent cache-synchronization and action-dispatch
subsystem (pkg/container/resource_actions.go and pkg/kubernetes/informers.go).

Go maps are modelled as association lists with overwrite-on-insert semantics;
indexing a map with a missing key yields the zero value, which for the nested
`map[string]ActionHandler` / `map[string]Handler` structure is modelled as
`Option.none` (the nil inner map, respectively the nil Handler function).
-/

namespace Ospagent

set_option autoImplicit false

/-- Lookup in an association list modelling a Go map: the first binding of the
key wins (keys are unique by construction since insert overwrites). A missing
key yields `none`, modelling Go's zero value on map indexing. -/
def mapLookup {κ α : Type} [DecidableEq κ] : List (κ × α) → κ → Option α
  | [], _ => none
  | (k, v) :: rest, key => if key = k then some v else mapLookup rest key

/-- Go map assignment `m[key] = v`: overwrites an existing binding of `key`,
otherwise appends a new binding. -/
def mapInsert {κ α : Type} [DecidableEq κ] : List (κ × α) → κ → α → List (κ × α)
  | [], key, v => [(key, v)]
  | (k, w) :: rest, key, v =>
      if key = k then (k, v) :: rest else (k, w) :: mapInsert rest key v

/-! ## Dispatch table (pkg/container/resource_actions.go) -/

/-- Action-name constants of resource_actions.go. -/
def LIST : String := "list"

def GET : String := "get"

def DELETE : String := "delete"

def UPDATE : String := "update"

def EXEC : String := "exec"

def STDIN : String := "stdin"

def OPENLOG : String := "openLog"

def CLOSELOG : String := "closeLog"

/-- Identity of each concrete handler function registered in
`NewResourceActions`. The Go `Handler` is a function value; only its identity
matters for the dispatch-table claims, so handlers are modelled as this
enumeration. A nil Go `Handler` is modelled as `Option.none` at lookup sites. -/
inductive HandlerId where
  | watchAction
  | podList
  | podGet
  | podExec
  | podExecStdIn
  | podOpenLog
  | podCloseLog
  | podDelete
  | podUpdate
  | nsList
  | nodeList
  | configMapList
deriving DecidableEq, Repr

/-- `type ActionHandler map[string]Handler`. -/
abbrev ActionHandler := List (String × HandlerId)

/-- `type ResourceActions struct`: only the dispatch map is relevant to the
claims (the KubeClient field carries no dispatch behaviour). -/
structure ResourceActions where
  ResourceActionHandler : List (String × ActionHandler)
deriving DecidableEq

/-- The `watchActions` map literal of NewResourceActions. -/
def watchActions : ActionHandler := [(GET, HandlerId.watchAction)]

/-- The `podActions` map literal of NewResourceActions. -/
def podActions : ActionHandler :=
  [(LIST, HandlerId.podList), (GET, HandlerId.podGet), (EXEC, HandlerId.podExec),
   (STDIN, HandlerId.podExecStdIn), (OPENLOG, HandlerId.podOpenLog),
   (CLOSELOG, HandlerId.podCloseLog), (DELETE, HandlerId.podDelete),
   (UPDATE, HandlerId.podUpdate)]

/-- The `nsActions` map literal of NewResourceActions. -/
def nsActions : ActionHandler := [(LIST, HandlerId.nsList)]

/-- The `nodeActions` map literal of NewResourceActions. -/
def nodeActions : ActionHandler := [(LIST, HandlerId.nodeList)]

/-- The `configMapActions` map literal of NewResourceActions. -/
def configMapActions : ActionHandler := [(LIST, HandlerId.configMapList)]

/-- `NewResourceActions`: builds the dispatch table by successive map
assignments `actionHandlers[kind] = kindActions`, in source order. -/
def NewResourceActions : ResourceActions :=
  let m0 : List (String × ActionHandler) := []
  let m1 := mapInsert m0 "watch" watchActions
  let m2 := mapInsert m1 "pod" podActions
  let m3 := mapInsert m2 "namespace" nsActions
  let m4 := mapInsert m3 "node" nodeActions
  let m5 := mapInsert m4 "configMap" configMapActions
  { ResourceActionHandler := m5 }

/-- `GetRequestHandler`: the Go double map index
`r.ResourceActionHandler[resource][action]`. A missing outer key yields the
nil `ActionHandler` map, and indexing the nil map yields the nil `Handler`;
both are `none` here. -/
def GetRequestHandler (r : ResourceActions) (resource action : String) :
    Option HandlerId :=
  match mapLookup r.ResourceActionHandler resource with
  | none => none
  | some ah => mapLookup ah action

/-- All (kind, action, handler) triples present in the built dispatch table,
flattened from the table itself. -/
def registeredPairs : List (String × String × HandlerId) :=
  NewResourceActions.ResourceActionHandler.flatMap
    (fun p => p.2.map (fun q => (p.1, q.1, q.2)))

/-- Whether some handler is registered for the (resource, action) pair. -/
def isRegistered (resource action : String) : Bool :=
  registeredPairs.any (fun t => t.1 = resource ∧ t.2.1 = action)

theorem resourceActionHandler_eq :
    NewResourceActions.ResourceActionHandler =
      [("watch", watchActions), ("pod", podActions), ("namespace", nsActions),
       ("node", nodeActions), ("configMap", configMapActions)] := by
  decide

theorem getRequestHandler_eq (res act : String) :
    GetRequestHandler NewResourceActions res act =
      if res = "watch" then mapLookup watchActions act
      else if res = "pod" then mapLookup podActions act
      else if res = "namespace" then mapLookup nsActions act
      else if res = "node" then mapLookup nodeActions act
      else if res = "configMap" then mapLookup configMapActions act
      else none := by
  rw [GetRequestHandler, resourceActionHandler_eq]
  by_cases h1 : res = "watch" <;> by_cases h2 : res = "pod" <;>
    by_cases h3 : res = "namespace" <;> by_cases h4 : res = "node" <;>
    by_cases h5 : res = "configMap" <;>
    simp_all [mapLookup]

theorem registeredPairs_eq :
    registeredPairs =
      [("watch", GET, HandlerId.watchAction),
       ("pod", LIST, HandlerId.podList), ("pod", GET, HandlerId.podGet),
       ("pod", EXEC, HandlerId.podExec), ("pod", STDIN, HandlerId.podExecStdIn),
       ("pod", OPENLOG, HandlerId.podOpenLog), ("pod", CLOSELOG, HandlerId.podCloseLog),
       ("pod", DELETE, HandlerId.podDelete), ("pod", UPDATE, HandlerId.podUpdate),
       ("namespace", LIST, HandlerId.nsList), ("node", LIST, HandlerId.nodeList),
       ("configMap", LIST, HandlerId.configMapList)] := by
  decide

theorem mapLookup_mapInsert_self {κ α : Type} [DecidableEq κ]
    (m : List (κ × α)) (k : κ) (v : α) :
    mapLookup (mapInsert m k v) k = some v := by
  induction m with
  | nil => simp [mapInsert, mapLookup]
  | cons p rest ih =>
      obtain ⟨k1, v1⟩ := p
      by_cases hk : k = k1
      · subst hk; simp [mapInsert, mapLookup]
      · simp [mapInsert, mapLookup, hk, ih]

/-- C1: for every (resource-kind, action) pair that is not registered in the
dispatch table built by NewResourceActions — any kind outside
watch, pod, namespace, node, configMap, or a registered kind with an unbound
action — GetRequestHandler returns the nil-Handler sentinel (none), so no
handler can be invoked for such a pair. -/
theorem getRequestHandler_unregistered (res act : String)
    (h : isRegistered res act = false) :
    GetRequestHandler NewResourceActions res act = none := by
  rw [getRequestHandler_eq]
  by_cases h1 : res = "watch"
  · subst h1
    rw [if_pos rfl]
    by_cases a1 : act = "get"
    · subst a1; exact absurd h (by decide)
    simp [watchActions, mapLookup, GET, a1]
  rw [if_neg h1]
  by_cases h2 : res = "pod"
  · subst h2
    rw [if_pos rfl]
    by_cases a1 : act = "list"
    · subst a1; exact absurd h (by decide)
    by_cases a2 : act = "get"
    · subst a2; exact absurd h (by decide)
    by_cases a3 : act = "exec"
    · subst a3; exact absurd h (by decide)
    by_cases a4 : act = "stdin"
    · subst a4; exact absurd h (by decide)
    by_cases a5 : act = "openLog"
    · subst a5; exact absurd h (by decide)
    by_cases a6 : act = "closeLog"
    · subst a6; exact absurd h (by decide)
    by_cases a7 : act = "delete"
    · subst a7; exact absurd h (by decide)
    by_cases a8 : act = "update"
    · subst a8; exact absurd h (by decide)
    simp [podActions, mapLookup, LIST, GET, EXEC, STDIN, OPENLOG, CLOSELOG,
      DELETE, UPDATE, a1, a2, a3, a4, a5, a6, a7, a8]
  rw [if_neg h2]
  by_cases h3 : res = "namespace"
  · subst h3
    rw [if_pos rfl]
    by_cases a1 : act = "list"
    · subst a1; exact absurd h (by decide)
    simp [nsActions, mapLookup, LIST, a1]
  rw [if_neg h3]
  by_cases h4 : res = "node"
  · subst h4
    rw [if_pos rfl]
    by_cases a1 : act = "list"
    · subst a1; exact absurd h (by decide)
    simp [nodeActions, mapLookup, LIST, a1]
  rw [if_neg h4]
  by_cases h5 : res = "configMap"
  · subst h5
    rw [if_pos rfl]
    by_cases a1 : act = "list"
    · subst a1; exact absurd h (by decide)
    simp [configMapActions, mapLookup, LIST, a1]
  rw [if_neg h5]

/-- Witness for getRequestHandler_unregistered: the pair (pod, restart) is
unregistered and looks up to the nil Handler. -/
theorem getRequestHandler_unregistered_witness :
    isRegistered "pod" "restart" = false ∧
      GetRequestHandler NewResourceActions "pod" "restart" = none :=
  ⟨by decide, getRequestHandler_unregistered "pod" "restart" (by decide)⟩

/-- C2: every (kind, action, handler) triple present in the dispatch table
built by NewResourceActions is returned exactly by GetRequestHandler on that
(kind, action) pair — no cross-kind or cross-action leakage. -/
theorem getRequestHandler_registered (res act : String) (h : HandlerId)
    (hmem : (res, act, h) ∈ registeredPairs) :
    GetRequestHandler NewResourceActions res act = some h := by
  rw [registeredPairs_eq] at hmem
  fin_cases hmem <;> decide

/-- Witness for getRequestHandler_registered at the registered pair
(pod, list). -/
theorem getRequestHandler_registered_witness :
    GetRequestHandler NewResourceActions "pod" "list" = some HandlerId.podList :=
  getRequestHandler_registered "pod" "list" HandlerId.podList (by decide)

/-- Counterexample to C4: re-binding the already-bound pair (pod, list) via
the Go map assignment that NewResourceActions uses for registration does not
fail with any DuplicateRegistration error — it silently replaces the original
handler, so the original registration does not remain in place. -/
theorem duplicate_registration_overwrites :
    mapLookup podActions LIST = some HandlerId.podList ∧
    mapLookup (mapInsert podActions LIST HandlerId.watchAction) LIST =
      some HandlerId.watchAction := by
  decide

/-- C4 amended: registering a handler for an already-bound (kind, action) pair
does not fail; the Go map assignment silently replaces the originally
registered handler with the new one. -/
theorem register_duplicate_replaces (m : ActionHandler) (act : String)
    (hNew hOld : HandlerId) (_hbound : mapLookup m act = some hOld) :
    mapLookup (mapInsert m act hNew) act = some hNew :=
  mapLookup_mapInsert_self m act hNew

/-- Witness for register_duplicate_replaces: re-binding (pod, list). -/
theorem register_duplicate_replaces_witness :
    mapLookup (mapInsert podActions LIST HandlerId.watchAction) LIST =
      some HandlerId.watchAction :=
  register_duplicate_replaces podActions LIST HandlerId.watchAction
    HandlerId.podList (by decide)

/-- Counterexample to C7: the claim expects GetRequestHandler("namespace",
"get") to return a registered handler, but the namespace kind registers only
the list action, so the lookup returns the nil-Handler sentinel. -/
theorem namespace_get_not_found :
    GetRequestHandler NewResourceActions "namespace" "get" = none := by
  decide

/-- C7 amended: GetRequestHandler("pod","list") and
GetRequestHandler("namespace","list") return the registered handlers;
GetRequestHandler("namespace","get") and GetRequestHandler("pod","restart")
return the nil-Handler (not found) sentinel. -/
theorem scenario_lookups :
    GetRequestHandler NewResourceActions "pod" "list" = some HandlerId.podList ∧
    GetRequestHandler NewResourceActions "namespace" "list" = some HandlerId.nsList ∧
    GetRequestHandler NewResourceActions "namespace" "get" = none ∧
    GetRequestHandler NewResourceActions "pod" "restart" = none := by
  decide

/-- C10: GetRequestHandler is total over arbitrary strings: the double map
index always evaluates to a Handler value — either the nil sentinel (none) or
a registered handler — and in particular a resource kind with no entry in the
outer map yields the nil Handler without faulting. -/
theorem getRequestHandler_total (res act : String) :
    (GetRequestHandler NewResourceActions res act = none ∨
      ∃ h, GetRequestHandler NewResourceActions res act = some h) ∧
    (mapLookup NewResourceActions.ResourceActionHandler res = none →
      GetRequestHandler NewResourceActions res act = none) := by
  constructor
  · cases hg : GetRequestHandler NewResourceActions res act
    · exact Or.inl rfl
    · exact Or.inr ⟨_, rfl⟩
  · intro hmiss
    unfold GetRequestHandler
    rw [hmiss]

/-- Witness for getRequestHandler_total: the kind deployment has no entry in
the outer dispatch map and the double index yields the nil Handler. -/
theorem getRequestHandler_total_witness :
    GetRequestHandler NewResourceActions "deployment" "list" = none :=
  (getRequestHandler_total "deployment" "list").2 (by decide)

/-! ## Cache synchronization manager (pkg/kubernetes/informers.go)

The nine per-kind informer constructors share one body: obtain the kind's
informer from the shared factory, `factory.Start(stopCh)`, then
`cache.WaitForCacheSync(stopCh, informer.HasSynced)`; on failure they return a
nil informer and a fixed timeout error. The shared factory and
WaitForCacheSync are client-go collaborators outside this repository; they are
modelled after the capability interface the spec describes for them
(create/obtain one memoized informer per kind, start effective once, block
until synced or the stop signal): the `sync` oracle below gives
WaitForCacheSync's outcome per kind. -/

inductive Kind where
  | pod
  | ns
  | node
  | persistentVolume
  | configMap
  | event
  | deployment
  | statefulSet
  | daemonSet
deriving DecidableEq, Repr

/-- The string naming each resource kind in the dispatch table. -/
def kindName : Kind → String
  | Kind.pod => "pod"
  | Kind.ns => "namespace"
  | Kind.node => "node"
  | Kind.persistentVolume => "persistentVolume"
  | Kind.configMap => "configMap"
  | Kind.event => "event"
  | Kind.deployment => "deployment"
  | Kind.statefulSet => "statefulSet"
  | Kind.daemonSet => "daemonSet"

/-- A per-kind informer handle handed out by the shared factory. Only its
identity (kind plus creation number) matters to the claims about handles. -/
structure Watcher where
  kind : Kind
  id : Nat
deriving DecidableEq, Repr

/-- The shared informer factory (`informers.NewSharedInformerFactory`):
memoizes one informer per kind; `Start` is effective once per process. -/
structure Factory where
  informers : List (Kind × Watcher)
  nextId : Nat
  started : Bool
deriving DecidableEq, Repr

/-- `informers.NewSharedInformerFactory(kubeClient, 0)`: fresh factory. -/
def NewSharedInformerFactory : Factory :=
  { informers := [], nextId := 0, started := false }

/-- `factory.Core().V1().Pods()` and siblings: obtain the kind's informer,
creating and memoizing it on first request. -/
def factoryGet (f : Factory) (k : Kind) : Factory × Watcher :=
  match mapLookup f.informers k with
  | some w => (f, w)
  | none =>
      let w : Watcher := { kind := k, id := f.nextId }
      ({ f with informers := mapInsert f.informers k w, nextId := f.nextId + 1 },
       w)

/-- `factory.Start(stopCh)`: starts the factory event pump, effective once. -/
def factoryStart (f : Factory) : Factory := { f with started := true }

/-- The error message of NewPodInformer and NewNamespaceInformer. -/
def timedOutMsg : String := "timed out waiting for caches to sync"

/-- The error message of the other seven informer constructors. -/
def timeOutMsg : String := "time out waiting for caches to sync"

/-- The fixed error message each per-kind constructor returns on sync
failure. -/
def timeoutMsgFor : Kind → String
  | Kind.pod => timedOutMsg
  | Kind.ns => timedOutMsg
  | _ => timeOutMsg

/-- The body shared verbatim by the nine per-kind informer constructors:
obtain the kind's informer from the factory, start the factory, wait for the
cache sync; on sync failure return the constructor's fixed error and no
informer (Go returns `(nil, err)`, modelled by `Except.error`). -/
def newInformerFor (k : Kind) (msg : String) (sync : Kind → Bool)
    (f : Factory) : Factory × Except String Watcher :=
  let p := factoryGet f k
  let f2 := factoryStart p.1
  if sync k then (f2, Except.ok p.2) else (f2, Except.error msg)

def NewPodInformer : (Kind → Bool) → Factory → Factory × Except String Watcher :=
  newInformerFor Kind.pod timedOutMsg

def NewNamespaceInformer : (Kind → Bool) → Factory → Factory × Except String Watcher :=
  newInformerFor Kind.ns timedOutMsg

def NewNodeInformer : (Kind → Bool) → Factory → Factory × Except String Watcher :=
  newInformerFor Kind.node timeOutMsg

def NewEventInformer : (Kind → Bool) → Factory → Factory × Except String Watcher :=
  newInformerFor Kind.event timeOutMsg

def NewDeploymentInformer : (Kind → Bool) → Factory → Factory × Except String Watcher :=
  newInformerFor Kind.deployment timeOutMsg

def NewPersistentVolumeInformer : (Kind → Bool) → Factory → Factory × Except String Watcher :=
  newInformerFor Kind.persistentVolume timeOutMsg

def NewConfigMapInformer : (Kind → Bool) → Factory → Factory × Except String Watcher :=
  newInformerFor Kind.configMap timeOutMsg

def NewStatefulSetInformer : (Kind → Bool) → Factory → Factory × Except String Watcher :=
  newInformerFor Kind.statefulSet timeOutMsg

def NewDaemonSetInformer : (Kind → Bool) → Factory → Factory × Except String Watcher :=
  newInformerFor Kind.daemonSet timeOutMsg

/-- The per-kind start routine: which informer constructor serves each kind. -/
def startRoutine : Kind → (Kind → Bool) → Factory → Factory × Except String Watcher
  | Kind.pod => NewPodInformer
  | Kind.ns => NewNamespaceInformer
  | Kind.node => NewNodeInformer
  | Kind.persistentVolume => NewPersistentVolumeInformer
  | Kind.configMap => NewConfigMapInformer
  | Kind.event => NewEventInformer
  | Kind.deployment => NewDeploymentInformer
  | Kind.statefulSet => NewStatefulSetInformer
  | Kind.daemonSet => NewDaemonSetInformer

/-- `type InformerRegistryImpl struct`: one informer handle per field, in
source order. -/
structure InformerRegistryImpl where
  podInformer : Watcher
  nameSpaceInformer : Watcher
  nodeInformer : Watcher
  eventInformer : Watcher
  deploymentInformer : Watcher
  persistentVolumeInformer : Watcher
  configMapInformer : Watcher
  statefulSetInformer : Watcher
  daemonSetInformer : Watcher
deriving DecidableEq, Repr

def InformerRegistryImpl.PodInformer (r : InformerRegistryImpl) : Watcher :=
  r.podInformer

def InformerRegistryImpl.NamespaceInformer (r : InformerRegistryImpl) : Watcher :=
  r.nameSpaceInformer

def InformerRegistryImpl.NodeInformer (r : InformerRegistryImpl) : Watcher :=
  r.nodeInformer

def InformerRegistryImpl.EventInformer (r : InformerRegistryImpl) : Watcher :=
  r.eventInformer

def InformerRegistryImpl.DeploymentInformer (r : InformerRegistryImpl) : Watcher :=
  r.deploymentInformer

def InformerRegistryImpl.PersistentVolumeInformer (r : InformerRegistryImpl) : Watcher :=
  r.persistentVolumeInformer

def InformerRegistryImpl.ConfigMapInformer (r : InformerRegistryImpl) : Watcher :=
  r.configMapInformer

def InformerRegistryImpl.StatefulSetInformer (r : InformerRegistryImpl) : Watcher :=
  r.statefulSetInformer

def InformerRegistryImpl.DaemonSetInformer (r : InformerRegistryImpl) : Watcher :=
  r.daemonSetInformer

/-- `NewInformerRegistry`: builds the shared factory and starts the nine
kinds sequentially, aborting with `(nil, err)` at the first failure. -/
def NewInformerRegistry (sync : Kind → Bool) :
    Except String InformerRegistryImpl :=
  let factory := NewSharedInformerFactory
  match NewPodInformer sync factory with
  | (_, Except.error e) => Except.error e
  | (f1, Except.ok podI) =>
    match NewNamespaceInformer sync f1 with
    | (_, Except.error e) => Except.error e
    | (f2, Except.ok nsI) =>
      match NewNodeInformer sync f2 with
      | (_, Except.error e) => Except.error e
      | (f3, Except.ok nodeI) =>
        match NewPersistentVolumeInformer sync f3 with
        | (_, Except.error e) => Except.error e
        | (f4, Except.ok pvI) =>
          match NewConfigMapInformer sync f4 with
          | (_, Except.error e) => Except.error e
          | (f5, Except.ok cmI) =>
            match NewEventInformer sync f5 with
            | (_, Except.error e) => Except.error e
            | (f6, Except.ok eventI) =>
              match NewDeploymentInformer sync f6 with
              | (_, Except.error e) => Except.error e
              | (f7, Except.ok depI) =>
                match NewStatefulSetInformer sync f7 with
                | (_, Except.error e) => Except.error e
                | (f8, Except.ok ssI) =>
                  match NewDaemonSetInformer sync f8 with
                  | (_, Except.error e) => Except.error e
                  | (_, Except.ok dsI) =>
                    Except.ok
                      { podInformer := podI, nameSpaceInformer := nsI,
                        nodeInformer := nodeI, eventInformer := eventI,
                        deploymentInformer := depI,
                        persistentVolumeInformer := pvI,
                        configMapInformer := cmI, statefulSetInformer := ssI,
                        daemonSetInformer := dsI }

/-- The nine kinds NewInformerRegistry synchronizes, in call order. -/
def allKinds : List Kind :=
  [Kind.pod, Kind.ns, Kind.node, Kind.persistentVolume, Kind.configMap,
   Kind.event, Kind.deployment, Kind.statefulSet, Kind.daemonSet]

/-- The registry value NewInformerRegistry produces when every kind syncs:
informer handles numbered by creation order on the fresh shared factory. -/
def theRegistry : InformerRegistryImpl :=
  { podInformer := { kind := Kind.pod, id := 0 },
    nameSpaceInformer := { kind := Kind.ns, id := 1 },
    nodeInformer := { kind := Kind.node, id := 2 },
    eventInformer := { kind := Kind.event, id := 5 },
    deploymentInformer := { kind := Kind.deployment, id := 6 },
    persistentVolumeInformer := { kind := Kind.persistentVolume, id := 3 },
    configMapInformer := { kind := Kind.configMap, id := 4 },
    statefulSetInformer := { kind := Kind.statefulSet, id := 7 },
    daemonSetInformer := { kind := Kind.daemonSet, id := 8 } }

theorem factoryGet_lookup (f : Factory) (k : Kind) :
    mapLookup (factoryGet f k).1.informers k = some (factoryGet f k).2 := by
  unfold factoryGet
  cases hl : mapLookup f.informers k with
  | some w => simpa using hl
  | none => simp [mapLookup_mapInsert_self]

theorem factoryGet_of_lookup {f : Factory} {k : Kind} {w : Watcher}
    (h : mapLookup f.informers k = some w) : factoryGet f k = (f, w) := by
  unfold factoryGet
  rw [h]

theorem factoryStart_informers (f : Factory) :
    (factoryStart f).informers = f.informers := rfl

theorem factoryStart_idem (f : Factory) :
    factoryStart (factoryStart f) = factoryStart f := rfl

theorem newInformerFor_fst (k : Kind) (msg : String) (sync : Kind → Bool)
    (f : Factory) :
    (newInformerFor k msg sync f).1 = factoryStart (factoryGet f k).1 := by
  unfold newInformerFor
  by_cases h : sync k <;> simp [h]

theorem startRoutine_eq (k : Kind) :
    startRoutine k = newInformerFor k (timeoutMsgFor k) := by
  cases k <;> rfl

theorem startRoutine_error_eq {k : Kind} {sync : Kind → Bool} {f : Factory}
    {e : String} (h : (startRoutine k sync f).2 = Except.error e) :
    e = timeoutMsgFor k := by
  rw [startRoutine_eq] at h
  unfold newInformerFor at h
  by_cases hs : sync k <;> simp [hs] at h
  exact h.symm

theorem newInformerRegistry_spec (sync : Kind → Bool) :
    (allKinds.all sync = true ∧
      NewInformerRegistry sync = Except.ok theRegistry) ∨
    (allKinds.all sync = false ∧
      ∃ e, NewInformerRegistry sync = Except.error e) := by
  by_cases h1 : sync Kind.pod = true
  case neg =>
    rw [Bool.not_eq_true] at h1
    refine Or.inr ⟨by simp [allKinds, h1], timedOutMsg, ?_⟩
    simp [NewInformerRegistry, NewPodInformer, newInformerFor, h1]
  by_cases h2 : sync Kind.ns = true
  case neg =>
    rw [Bool.not_eq_true] at h2
    refine Or.inr ⟨by simp [allKinds, h2], timedOutMsg, ?_⟩
    simp [NewInformerRegistry, NewPodInformer, NewNamespaceInformer,
      newInformerFor, h1, h2]
  by_cases h3 : sync Kind.node = true
  case neg =>
    rw [Bool.not_eq_true] at h3
    refine Or.inr ⟨by simp [allKinds, h3], timeOutMsg, ?_⟩
    simp [NewInformerRegistry, NewPodInformer, NewNamespaceInformer,
      NewNodeInformer, newInformerFor, h1, h2, h3]
  by_cases h4 : sync Kind.persistentVolume = true
  case neg =>
    rw [Bool.not_eq_true] at h4
    refine Or.inr ⟨by simp [allKinds, h4], timeOutMsg, ?_⟩
    simp [NewInformerRegistry, NewPodInformer, NewNamespaceInformer,
      NewNodeInformer, NewPersistentVolumeInformer, newInformerFor,
      h1, h2, h3, h4]
  by_cases h5 : sync Kind.configMap = true
  case neg =>
    rw [Bool.not_eq_true] at h5
    refine Or.inr ⟨by simp [allKinds, h5], timeOutMsg, ?_⟩
    simp [NewInformerRegistry, NewPodInformer, NewNamespaceInformer,
      NewNodeInformer, NewPersistentVolumeInformer, NewConfigMapInformer,
      newInformerFor, h1, h2, h3, h4, h5]
  by_cases h6 : sync Kind.event = true
  case neg =>
    rw [Bool.not_eq_true] at h6
    refine Or.inr ⟨by simp [allKinds, h6], timeOutMsg, ?_⟩
    simp [NewInformerRegistry, NewPodInformer, NewNamespaceInformer,
      NewNodeInformer, NewPersistentVolumeInformer, NewConfigMapInformer,
      NewEventInformer, newInformerFor, h1, h2, h3, h4, h5, h6]
  by_cases h7 : sync Kind.deployment = true
  case neg =>
    rw [Bool.not_eq_true] at h7
    refine Or.inr ⟨by simp [allKinds, h7], timeOutMsg, ?_⟩
    simp [NewInformerRegistry, NewPodInformer, NewNamespaceInformer,
      NewNodeInformer, NewPersistentVolumeInformer, NewConfigMapInformer,
      NewEventInformer, NewDeploymentInformer, newInformerFor,
      h1, h2, h3, h4, h5, h6, h7]
  by_cases h8 : sync Kind.statefulSet = true
  case neg =>
    rw [Bool.not_eq_true] at h8
    refine Or.inr ⟨by simp [allKinds, h8], timeOutMsg, ?_⟩
    simp [NewInformerRegistry, NewPodInformer, NewNamespaceInformer,
      NewNodeInformer, NewPersistentVolumeInformer, NewConfigMapInformer,
      NewEventInformer, NewDeploymentInformer, NewStatefulSetInformer,
      newInformerFor, h1, h2, h3, h4, h5, h6, h7, h8]
  by_cases h9 : sync Kind.daemonSet = true
  case neg =>
    rw [Bool.not_eq_true] at h9
    refine Or.inr ⟨by simp [allKinds, h9], timeOutMsg, ?_⟩
    simp [NewInformerRegistry, NewPodInformer, NewNamespaceInformer,
      NewNodeInformer, NewPersistentVolumeInformer, NewConfigMapInformer,
      NewEventInformer, NewDeploymentInformer, NewStatefulSetInformer,
      NewDaemonSetInformer, newInformerFor, h1, h2, h3, h4, h5, h6, h7, h8, h9]
  refine Or.inl ⟨by simp [allKinds, h1, h2, h3, h4, h5, h6, h7, h8, h9], ?_⟩
  simp [NewInformerRegistry, NewPodInformer, NewNamespaceInformer,
    NewNodeInformer, NewPersistentVolumeInformer, NewConfigMapInformer,
    NewEventInformer, NewDeploymentInformer, NewStatefulSetInformer,
    NewDaemonSetInformer, newInformerFor, factoryGet, factoryStart,
    NewSharedInformerFactory, mapLookup, mapInsert, theRegistry,
    h1, h2, h3, h4, h5, h6, h7, h8, h9]

theorem newInformerRegistry_ok_eq {sync : Kind → Bool}
    {reg : InformerRegistryImpl} (h : NewInformerRegistry sync = Except.ok reg) :
    reg = theRegistry := by
  rcases newInformerRegistry_spec sync with ⟨_, hok⟩ | ⟨_, e, herr⟩
  · rw [hok] at h
    exact (Except.ok.inj h).symm
  · rw [herr] at h
    cases h

/-- C3: NewInformerRegistry returns a registry exactly when every one of the
nine registered kinds reports synced; if any kind's synchronization fails it
returns no registry (Go nil) and a non-nil error, so the registry is never
exposed with an unsynced kind. -/
theorem newInformerRegistry_all_synced (sync : Kind → Bool) :
    ((∃ r, NewInformerRegistry sync = Except.ok r) ↔ allKinds.all sync = true) ∧
    ((∃ e, NewInformerRegistry sync = Except.error e) ↔
      allKinds.all sync = false) := by
  rcases newInformerRegistry_spec sync with ⟨hall, hok⟩ | ⟨hall, e, herr⟩
  · simp [hok, hall]
  · simp [herr, hall]

/-- Witness for newInformerRegistry_all_synced: with every kind synced, a
registry is returned. -/
theorem newInformerRegistry_all_synced_witness :
    ∃ r, NewInformerRegistry (fun _ => true) = Except.ok r :=
  (newInformerRegistry_all_synced (fun _ => true)).1.mpr (by decide)

/-- C5: for every resource kind, when the kind's cache does not report synced
before the deadline, the per-kind start routine fails with its fixed
sync-timeout error, and the informer handle survives inside the shared
factory: a retry on the returned factory (with the sync now succeeding)
returns exactly the watcher created by the first call. -/
theorem syncTimeout_and_retry (k : Kind) (sync sync2 : Kind → Bool)
    (f : Factory) (hfail : sync k = false) (hok : sync2 k = true) :
    (startRoutine k sync f).2 = Except.error (timeoutMsgFor k) ∧
    (startRoutine k sync2 (startRoutine k sync f).1).2 =
      Except.ok (factoryGet f k).2 := by
  rw [startRoutine_eq]
  constructor
  · simp [newInformerFor, hfail]
  · rw [newInformerFor_fst]
    have hget : factoryGet (factoryStart (factoryGet f k).1) k =
        (factoryStart (factoryGet f k).1, (factoryGet f k).2) := by
      apply factoryGet_of_lookup
      rw [factoryStart_informers]
      exact factoryGet_lookup f k
    simp [newInformerFor, hget, hok]

/-- Witness for syncTimeout_and_retry: pod kind on the fresh factory, first
sync failing, retry succeeding. -/
theorem syncTimeout_and_retry_witness :
    (startRoutine Kind.pod (fun _ => false) NewSharedInformerFactory).2 =
      Except.error (timeoutMsgFor Kind.pod) ∧
    (startRoutine Kind.pod (fun _ => true)
        (startRoutine Kind.pod (fun _ => false) NewSharedInformerFactory).1).2 =
      Except.ok (factoryGet NewSharedInformerFactory Kind.pod).2 :=
  syncTimeout_and_retry Kind.pod (fun _ => false) (fun _ => true)
    NewSharedInformerFactory rfl rfl

/-- C6: starting synchronization for a kind is idempotent: when a call to the
kind's start routine on the shared factory succeeds with some watcher, a
second call on the resulting factory returns the very same watcher and leaves
the factory unchanged (no new informer is created, no resynchronization of
the factory state). -/
theorem start_idempotent (k : Kind) (sync : Kind → Bool) (f f1 : Factory)
    (w : Watcher) (h : startRoutine k sync f = (f1, Except.ok w)) :
    startRoutine k sync f1 = (f1, Except.ok w) := by
  rw [startRoutine_eq] at h ⊢
  by_cases hs : sync k
  · unfold newInformerFor at h
    simp only [hs, if_true, Prod.mk.injEq, Except.ok.injEq] at h
    obtain ⟨hf1, hw⟩ := h
    subst hw
    have hget : factoryGet f1 k = (f1, (factoryGet f k).2) := by
      apply factoryGet_of_lookup
      rw [← hf1, factoryStart_informers]
      exact factoryGet_lookup f k
    have hstart : factoryStart f1 = f1 := by
      rw [← hf1]
      exact factoryStart_idem (factoryGet f k).1
    simp [newInformerFor, hget, hstart, hs]
  · exfalso
    unfold newInformerFor at h
    simp [hs] at h

/-- Witness for start_idempotent: pod kind started twice on the shared
factory; the second call returns the same watcher and the same factory. -/
theorem start_idempotent_witness :
    startRoutine Kind.pod (fun _ => true)
      { informers := [(Kind.pod, { kind := Kind.pod, id := 0 })],
        nextId := 1, started := true } =
    ({ informers := [(Kind.pod, { kind := Kind.pod, id := 0 })],
        nextId := 1, started := true },
      Except.ok { kind := Kind.pod, id := 0 }) :=
  start_idempotent Kind.pod (fun _ => true) NewSharedInformerFactory _ _ rfl

/-- Counterexample to C8: the start interface of NewPodInformer exposes only
one error value — the fixed timeout message — so there is no second
distinguishable recoverable-outage error kind; a transient control-plane
outage during the initial listing can only surface as that same error. -/
theorem no_second_error_kind :
    ¬ ∃ e1 e2 : String, e1 ≠ e2 ∧
      (∃ sync f, (NewPodInformer sync f).2 = Except.error e1) ∧
      (∃ sync f, (NewPodInformer sync f).2 = Except.error e2) := by
  rintro ⟨e1, e2, hne, ⟨s1, f1, hx⟩, ⟨s2, f2, hy⟩⟩
  have g1 : e1 = timeoutMsgFor Kind.pod :=
    startRoutine_error_eq
      (show (startRoutine Kind.pod s1 f1).2 = Except.error e1 from hx)
  have g2 : e2 = timeoutMsgFor Kind.pod :=
    startRoutine_error_eq
      (show (startRoutine Kind.pod s2 f2).2 = Except.error e2 from hy)
  exact hne (g1.trans g2.symm)

/-- C8 amended: every failure of a per-kind start routine — a transient
control-plane outage during the initial listing included — is reported as the
routine's single fixed sync-timeout error: the start interface exposes exactly
one error kind, and the routine returns at once without retrying. -/
theorem start_single_error_kind (k : Kind) (sync : Kind → Bool) (f : Factory)
    (e : String) (h : (startRoutine k sync f).2 = Except.error e) :
    e = timeoutMsgFor k :=
  startRoutine_error_eq h

/-- Witness for start_single_error_kind: the pod routine failing on the fresh
factory reports the fixed timed-out message. -/
theorem start_single_error_kind_witness :
    "timed out waiting for caches to sync" = timeoutMsgFor Kind.pod :=
  start_single_error_kind Kind.pod (fun _ => false) NewSharedInformerFactory
    "timed out waiting for caches to sync" rfl

/-- The resource kinds of the dispatch table whose actions read a watcher
cache: every registered kind except the watch pseudo-kind (whose single
action subscribes observers rather than reading a kind's cache). -/
def cacheReadingKinds : List String :=
  (NewResourceActions.ResourceActionHandler.map Prod.fst).filter
    (fun s => s ≠ "watch")

/-- The typed accessor surface of the registry: which accessor serves each
kind. -/
def registryInformer (r : InformerRegistryImpl) : Kind → Watcher
  | Kind.pod => r.PodInformer
  | Kind.ns => r.NamespaceInformer
  | Kind.node => r.NodeInformer
  | Kind.event => r.EventInformer
  | Kind.deployment => r.DeploymentInformer
  | Kind.persistentVolume => r.PersistentVolumeInformer
  | Kind.configMap => r.ConfigMapInformer
  | Kind.statefulSet => r.StatefulSetInformer
  | Kind.daemonSet => r.DaemonSetInformer

theorem cacheReadingKinds_eq :
    cacheReadingKinds = ["pod", "namespace", "node", "configMap"] := by
  decide

/-- C9: every dispatch-table kind with registered cache-reading actions (pod,
namespace, node, configMap) has a matching typed Watcher accessor on any
registry NewInformerRegistry returns, and that accessor yields the watcher of
exactly that kind. -/
theorem cacheReading_kinds_have_watcher (s : String)
    (hs : s ∈ cacheReadingKinds) :
    ∃ k : Kind, kindName k = s ∧
      ∀ (sync : Kind → Bool) (reg : InformerRegistryImpl),
        NewInformerRegistry sync = Except.ok reg →
          (registryInformer reg k).kind = k := by
  rw [cacheReadingKinds_eq] at hs
  fin_cases hs
  · exact ⟨Kind.pod, rfl, fun sync reg h => by
      rw [newInformerRegistry_ok_eq h]; rfl⟩
  · exact ⟨Kind.ns, rfl, fun sync reg h => by
      rw [newInformerRegistry_ok_eq h]; rfl⟩
  · exact ⟨Kind.node, rfl, fun sync reg h => by
      rw [newInformerRegistry_ok_eq h]; rfl⟩
  · exact ⟨Kind.configMap, rfl, fun sync reg h => by
      rw [newInformerRegistry_ok_eq h]; rfl⟩

/-- Witness for cacheReading_kinds_have_watcher at the pod kind. -/
theorem cacheReading_kinds_have_watcher_witness :
    "pod" ∈ cacheReadingKinds ∧
      ∃ k : Kind, kindName k = "pod" ∧
        ∀ (sync : Kind → Bool) (reg : InformerRegistryImpl),
          NewInformerRegistry sync = Except.ok reg →
            (registryInformer reg k).kind = k :=
  ⟨by decide, cacheReading_kinds_have_watcher "pod" (by decide)⟩

end Ospagent
